import Mathlib

/-!
Verification development for the synthetic CSV data generator
(`generate_full_csvs.py`), its schema (`models.py`) and the bulk loader
(`import_data_to_db.py`).

Modelling conventions:
* Machine randomness and faker samplers are abstracted as oracle inputs:
  `random.randint(a, b)` applied to an oracle draw `k` is modelled as
  `a + k % (b - a + 1)`, `random.choice xs` as `xs.getD (k % xs.length)`,
  and every faker string sampler (`fake.name()`, `fake.state()`,
  `fake.safe_email()`, ...) as a distinct oracle field holding the sampled
  string.  `random_date().isoformat()` and the timestamp rendering of
  `fake.date_time_between` are likewise abstracted as oracle-supplied
  strings: no claim depends on calendar arithmetic.
* The mutable dict `pk_values` is threaded explicitly as a `Pool`;
  a Python `dict` row is a function `String → Option Value`.
* `csv.DictWriter` is modelled at record level: the writer's framing and
  quoting are library code, the program supplies the header (fieldnames)
  and, per row, the rendered cell for each fieldname.
-/

namespace GenCsv

/-- `NUM_ROWS = 50` in `generate_full_csvs.py`. -/
def NUM_ROWS : Nat := 50

/-- A generated cell value: Python `None`, `str`, `int` or `bool`.
(Decimals, dates and timestamps are produced as strings by the source.) -/
inductive Value where
  | vNull
  | vStr (s : String)
  | vInt (n : Int)
  | vBool (b : Bool)
deriving DecidableEq, Repr

/-- SQLAlchemy column types the generator distinguishes
(`PG_UUID`, `Integer`, `String(length)`, `Text`, `Boolean`, `Date`,
`DateTime`, `Numeric(precision, scale)` keeping only the scale the
generator reads, `Float`). -/
inductive ColType where
  | uuid
  | integer
  | string (length : Option Nat)
  | text
  | boolean
  | date
  | datetime
  | numeric (scale : Option Nat)
  | float
deriving DecidableEq, Repr

/-- A column as the generator sees it: name, type, primary-key flag and
the list of `(referred_table, referred_column)` pairs from
`get_foreign_keys` (the generator only ever uses the first entry). -/
structure Column where
  name : String
  type : ColType
  primary_key : Bool
  foreign_keys : List (String × String)
deriving DecidableEq, Repr

/-- A table: its name and ordered column list. -/
structure Table where
  name : String
  columns : List Column
deriving DecidableEq, Repr

/-- `is_uuid_col` from the source. -/
def is_uuid_col (c : Column) : Bool :=
  match c.type with | .uuid => true | _ => false

/-- `is_integer_col` from the source. -/
def is_integer_col (c : Column) : Bool :=
  match c.type with | .integer => true | _ => false

/-- `is_string_col` from the source (`String` or `Text`). -/
def is_string_col (c : Column) : Bool :=
  match c.type with | .string _ => true | .text => true | _ => false

/-- `is_boolean_col` from the source. -/
def is_boolean_col (c : Column) : Bool :=
  match c.type with | .boolean => true | _ => false

/-- `is_date_col` from the source. -/
def is_date_col (c : Column) : Bool :=
  match c.type with | .date => true | _ => false

/-- `is_datetime_col` from the source. -/
def is_datetime_col (c : Column) : Bool :=
  match c.type with | .datetime => true | _ => false

/-- `is_numeric_col` from the source (`Numeric` or `Float`). -/
def is_numeric_col (c : Column) : Bool :=
  match c.type with | .numeric _ => true | .float => true | _ => false

/-- `hasattr(col.type, 'scale') and col.type.scale is not None` collapsed:
only a `Numeric` column carries a usable declared scale (SQLAlchemy
`Float` does not expose one to this code path). -/
def numericScale (c : Column) : Option Nat :=
  match c.type with | .numeric s => s | _ => none

/-- `hasattr(col.type, 'length') and col.type.length` (truthy): only a
bounded `String` column has a usable length. -/
def strLength (c : Column) : Option Nat :=
  match c.type with | .string l => l | _ => none

/-- The random draws and sampled faker strings consumed by one call of
`generate_value_for_column`.  Each field abstracts one sampler. -/
structure ColOracle where
  choice : Nat := 0
  rint : Nat := 0
  uuid : String := ""
  dateIso : String := ""
  datetimeIso : String := ""
  decWhole : Nat := 0
  decFrac : Nat := 0
  fname : String := ""
  company : String := ""
  email : String := ""
  phone : String := ""
  street : String := ""
  city : String := ""
  state : String := ""
  country : String := ""
  postcode : String := ""
  gstBothify : String := ""
  paragraph : String := ""
  codeBothify : String := ""
  otp : Nat := 0
  fillerText : String := ""
  word : String := ""
deriving Repr

/-- Whether the first list is a prefix of the second (on characters). -/
def charsStartWith : List Char → List Char → Bool
  | [], _ => true
  | _ :: _, [] => false
  | p :: ps, c :: cs => p == c && charsStartWith ps cs

/-- Whether `pat` occurs as a contiguous sublist of `hay`. -/
def charsContain : List Char → List Char → Bool
  | [], pat => pat.isEmpty
  | c :: t, pat => charsStartWith pat (c :: t) || charsContain t pat

/-- Python `pat in s` (substring containment) for the literal patterns
used by the name heuristics. -/
def strContains (s pat : String) : Bool :=
  charsContain s.data pat.data

/-- Python `s.lower()` (the column names here are ASCII). -/
def strToLower (s : String) : String :=
  String.mk (s.data.map Char.toLower)

/-- Python `s.startswith(pat)`. -/
def strStartsWith (s pat : String) : Bool :=
  charsStartWith pat.data s.data

/-- Python `s.endswith(pat)`. -/
def strEndsWith (s pat : String) : Bool :=
  charsStartWith pat.data.reverse s.data.reverse

/-- Python `s[:n]`. -/
def strTake (s : String) (n : Nat) : String :=
  String.mk (s.data.take n)

/-- `random.randint(a, b)` applied to an oracle draw `k`:
a value in `[a, b]`. -/
def randint (a b k : Nat) : Int :=
  ((a + k % (b - a + 1) : Nat) : Int)

/-- Python `str.zfill`: left-pad with `'0'` up to width `w`
(the inputs here are digit strings, never signed). -/
def zfill (s : String) (w : Nat) : String :=
  if w ≤ s.length then s
  else String.mk (List.replicate (w - s.length) '0') ++ s

/-- `random_decimal(scale, max_whole)` composed with `str(...)`:
`whole = randint(0, max_whole)`, `frac = randint(0, 10**scale - 1)`,
rendered as `f"{whole}.{str(frac).zfill(scale)}"` (which `Decimal` and
`str` preserve verbatim). -/
def random_decimal (scale max_whole kw kf : Nat) : String :=
  let whole := kw % (max_whole + 1)
  let frac := kf % (10 ^ scale)
  toString whole ++ "." ++ zfill (toString frac) scale

/-- The status vocabulary at line 185 of the source. -/
def statusChoices : List String :=
  ["active", "inactive", "pending", "confirmed", "draft", "paid", "unpaid", "cancelled"]

/-- The type vocabulary at line 187 of the source. -/
def typeChoices : List String :=
  ["asset", "liability", "expense", "income", "equity", "debit", "credit"]

/-- The string/text name-heuristic chain (source lines 164-199),
in source order. -/
def string_heuristic (col : Column) (o : ColOracle) : Value :=
  let cn := strToLower col.name
  if cn == "name" || strEndsWith cn "_name" || strContains cn "company" || strContains cn "vendor" then
    if strContains cn "company" then .vStr o.company else .vStr o.fname
  else if strContains cn "email" then .vStr o.email
  else if strContains cn "phone" || strContains cn "mobile" || strContains cn "contact" then
    .vStr o.phone
  else if strContains cn "address" || strContains cn "line" || strContains cn "street" then
    .vStr o.street
  else if strContains cn "city" then .vStr o.city
  else if strContains cn "state" then .vStr o.state
  else if strContains cn "country" then .vStr o.country
  else if strContains cn "pin" || strContains cn "postal" || strContains cn "postcode" then
    .vStr o.postcode
  else if strContains cn "gst" || strContains cn "pan" || strContains cn "hsn" || strContains cn "cin" then
    .vStr (strTake o.gstBothify 15)
  else if strContains cn "status" then
    .vStr (statusChoices.getD (o.choice % statusChoices.length) "")
  else if strContains cn "type" then
    .vStr (typeChoices.getD (o.choice % typeChoices.length) "")
  else if strContains cn "description" || strContains cn "notes" then .vStr o.paragraph
  else if strContains cn "code" || strContains cn "sku" || strContains cn "asset_number" then
    .vStr o.codeBothify
  else if strContains cn "otp" then .vInt (Int.ofNat o.otp)
  else
    match strLength col with
    | some n => if n ≠ 0 then .vStr (strTake o.fillerText n) else .vStr o.word
    | none => .vStr o.word

/-- The `pk_values` dict: `none` models the key being absent. -/
def Pool := String → Option (List Value)

/-- The fallback taken when the referenced table's pool is absent or
empty (source lines 129-134): fresh UUID for UUID columns, a bounded
random integer for integer columns, `None` otherwise. -/
def fk_fallback (col : Column) (o : ColOracle) : Value :=
  if is_uuid_col col then .vStr o.uuid
  else if is_integer_col col then .vInt (randint 1 (NUM_ROWS * 10) o.rint)
  else .vNull

/-- `generate_value_for_column` (source lines 122-199). -/
def generate_value_for_column (col : Column) (o : ColOracle) (pool : Pool) : Value :=
  match col.foreign_keys with
  | (ref_table, _) :: _ =>
    match pool ref_table with
    | none => fk_fallback col o
    | some vs =>
      if vs.isEmpty then fk_fallback col o
      else vs.getD (o.choice % vs.length) .vNull
  | [] =>
    if is_uuid_col col then .vStr o.uuid
    else if is_integer_col col then .vInt (randint 1 (NUM_ROWS * 10) o.rint)
    else if is_boolean_col col then
      let cn := strToLower col.name
      if strContains cn "is_" || strStartsWith cn "has_" || strEndsWith cn "_active" then
        .vBool ([true, false].getD (o.choice % 2) true)
      else
        .vBool ([true, false].getD (o.choice % 2) true)
    else if is_date_col col then .vStr o.dateIso
    else if is_datetime_col col then .vStr o.datetimeIso
    else if is_numeric_col col then
      match numericScale col with
      | some sc => .vStr (random_decimal sc 99999 o.decWhole o.decFrac)
      | none => .vStr (random_decimal 2 99999 o.decWhole o.decFrac)
    else string_heuristic col o

/-- Python `str(value)` on the values that can flow into the numeric
re-stringification at line 268. -/
def pyStr : Value → String
  | .vNull => "None"
  | .vStr s => s
  | .vBool b => if b then "True" else "False"
  | .vInt n => toString n

/-- A generated row: Python dict from column name to value. -/
def Row := String → Option Value

def emptyRow : Row := fun _ => none

/-- Dict assignment `row[k] = v`. -/
def rowSet (r : Row) (k : String) (v : Value) : Row :=
  fun s => if s = k then some v else r s

/-- The per-column body of the row loop (source lines 256-270):
sequential integers for integer primary keys take precedence, everything
else goes through `generate_value_for_column`, with numeric values forced
back through `str`. -/
def gen_cell (col : Column) (i : Nat) (o : ColOracle) (pool : Pool) : Value :=
  if col.primary_key && is_integer_col col then .vInt (Int.ofNat (i + 1))
  else
    let v := generate_value_for_column col o pool
    if is_numeric_col col then .vStr (pyStr v) else v

/-- The row dict built by iterating over the table's columns. -/
def gen_row (cols : List Column) (i : Nat) (os : String → ColOracle) (pool : Pool) : Row :=
  cols.foldl (fun r col => rowSet r col.name (gen_cell col i (os col.name) pool)) emptyRow

/-- The primary-key backstop (source lines 271-281): if the row's value
for the first primary-key column is `None`, replace it by a fresh UUID
(UUID columns) or `i + 1` (integer columns); return the possibly updated
row together with the value appended to the pool. -/
def backstop (pk : Column) (i : Nat) (bk : String) (row : Row) : Row × Value :=
  let pk_val := (row pk.name).getD .vNull
  if pk_val = .vNull then
    if is_uuid_col pk then (rowSet row pk.name (.vStr bk), .vStr bk)
    else if is_integer_col pk then
      (rowSet row pk.name (.vInt (Int.ofNat (i + 1))), .vInt (Int.ofNat (i + 1)))
    else (row, .vNull)
  else (row, pk_val)

/-- `pk_values.setdefault(table_name, [])`. -/
def poolSetdefault (p : Pool) (t : String) : Pool :=
  fun s => if s = t then some ((p t).getD []) else p s

/-- `pk_values[t].append(v)`. -/
def poolAppend (p : Pool) (t : String) (v : Value) : Pool :=
  fun s => if s = t then some ((p t).getD [] ++ [v]) else p s

/-- One iteration of the row loop for row index `i`: build the row,
run the backstop for the first primary-key column (if any) and append
the primary-key value to the table's pool. -/
def gen_one (tbl : Table) (osr : String → ColOracle) (bk : String) (i : Nat) (pool : Pool) :
    Row × Pool :=
  let row := gen_row tbl.columns i osr pool
  match (tbl.columns.filter fun c => c.primary_key).head? with
  | some pk =>
    let bs := backstop pk i bk row
    (bs.1, poolAppend pool tbl.name bs.2)
  | none => (row, pool)

/-- The row loop `for i in range(n)` starting at row index `i`,
threading the pool. -/
def gen_rows (tbl : Table) (oracle : Nat → String → ColOracle) (bk : Nat → String) :
    Nat → Nat → Pool → List Row × Pool
  | _, 0, pool => ([], pool)
  | i, n + 1, pool =>
    let first := gen_one tbl (oracle i) (bk i) i pool
    let rest := gen_rows tbl oracle bk (i + 1) n first.2
    (first.1 :: rest.1, rest.2)

/-- Processing one table inside `main` (source lines 242-283):
`pk_values.setdefault(table_name, [])` followed by the `NUM_ROWS`-row
generation loop. -/
def process_table (tbl : Table) (oracle : Nat → String → ColOracle) (bk : Nat → String)
    (pool : Pool) : List Row × Pool :=
  gen_rows tbl oracle bk 0 NUM_ROWS (poolSetdefault pool tbl.name)

/-- `row_to_csv_value` (source lines 201-211) on the values the
generator actually produces. -/
def row_to_csv_value : Value → String
  | .vNull => ""
  | .vBool b => if b then "true" else "false"
  | .vInt n => toString n
  | .vStr s => s

/-- A written CSV file at record level: the header row and the data
records, each a list of rendered cells. -/
structure CsvFile where
  header : List String
  records : List (List String)
deriving DecidableEq, Repr

/-- `write_csv_for_table` (source lines 213-222): fieldnames are the
declared column names in order; each data record renders the row's value
for each fieldname in that same order (a missing key renders as the
`DictWriter` restval `None`, i.e. the empty cell). -/
def write_csv_for_table (columns : List Column) (rows : List Row) : CsvFile :=
  let fieldnames := columns.map (·.name)
  { header := fieldnames
    records := rows.map fun r => fieldnames.map fun f => row_to_csv_value ((r f).getD .vNull) }

end GenCsv

namespace Loader

/-- A pandas cell after `pd.read_csv`: an empty CSV cell is `NaN`
(modelled `null`), anything else a string. -/
inductive Cell where
  | null
  | cstr (s : String)
deriving DecidableEq, Repr

/-- `pd.read_csv` on one cell. -/
def read_cell (s : String) : Cell :=
  if s = "" then .null else .cstr s

/-- Pandas `astype(str)`: `NaN` becomes the literal string `"nan"`. -/
def astype_str : Cell → String
  | .null => "nan"
  | .cstr s => s

/-- The trimming lambda in `load_csv_to_db` (source line 42):
`df[col].astype(str).apply(lambda x: x[:limit] if len(x) > limit else x)`. -/
def trim_varchar (limit : Nat) (c : Cell) : Cell :=
  let x := astype_str c
  .cstr (if limit < x.length then GenCsv.strTake x limit else x)

/-- The per-cell effect of steps 2-3 of `load_csv_to_db`: cells of
columns with a `VARCHAR(limit)` type go through the trimming lambda,
all other cells are left as read. -/
def load_cell (varchar_limit : Option Nat) (c : Cell) : Cell :=
  match varchar_limit with
  | some lim => trim_varchar lim c
  | none => c

/-- What `df.to_sql` inserts for a cell: `NaN` becomes SQL `NULL`
(`none`), a string is inserted as-is. -/
def inserted_value : Cell → Option String
  | .null => none
  | .cstr s => some s

end Loader

namespace GenCsv

/-! The schema of `models.py`, in the order returned by
`get_tables_in_order()`.  Each column records exactly the fields the
generator reads: name, type (with length/scale), primary-key flag and
foreign-key targets.  Nullability, defaults, indexes and relationships
are never consulted by the generator and are omitted. -/

/-- `Company` (`companies`). -/
def companiesTable : Table :=
  { name := "companies"
    columns :=
      [ ⟨"company_id", .uuid, true, []⟩
      , ⟨"name", .string (some 255), false, []⟩
      , ⟨"cin", .string (some 21), false, []⟩
      , ⟨"pan", .string (some 10), false, []⟩
      , ⟨"created_at", .datetime, false, []⟩ ] }

/-- `Role` (`roles`). -/
def rolesTable : Table :=
  { name := "roles"
    columns :=
      [ ⟨"role_id", .uuid, true, []⟩
      , ⟨"company_id", .uuid, false, [("companies", "company_id")]⟩
      , ⟨"role_name", .string (some 50), false, []⟩
      , ⟨"description", .text, false, []⟩
      , ⟨"created_at", .datetime, false, []⟩ ] }

/-- `Address` (`addresses`). -/
def addressesTable : Table :=
  { name := "addresses"
    columns :=
      [ ⟨"address_id", .uuid, true, []⟩
      , ⟨"company_id", .uuid, false, [("companies", "company_id")]⟩
      , ⟨"address_line1", .string (some 255), false, []⟩
      , ⟨"address_line2", .string (some 255), false, []⟩
      , ⟨"city", .string (some 100), false, []⟩
      , ⟨"state", .string (some 100), false, []⟩
      , ⟨"country", .string (some 100), false, []⟩
      , ⟨"pin_code", .string (some 10), false, []⟩
      , ⟨"latitude", .float, false, []⟩
      , ⟨"longitude", .float, false, []⟩
      , ⟨"created_at", .datetime, false, []⟩
      , ⟨"updated_at", .datetime, false, []⟩ ] }

/-- `UserCompanyRole` (`user_company_roles`): a composite primary key of
three UUID columns, the second and third also carrying foreign keys. -/
def userCompanyRolesTable : Table :=
  { name := "user_company_roles"
    columns :=
      [ ⟨"erp_user_id", .uuid, true, []⟩
      , ⟨"company_id", .uuid, true, [("companies", "company_id")]⟩
      , ⟨"role_id", .uuid, true, [("roles", "role_id")]⟩
      , ⟨"created_at", .datetime, false, []⟩
      , ⟨"updated_at", .datetime, false, []⟩ ] }

/-- `Department` (`departments`). -/
def departmentsTable : Table :=
  { name := "departments"
    columns :=
      [ ⟨"department_id", .uuid, true, []⟩
      , ⟨"company_id", .uuid, false, [("companies", "company_id")]⟩
      , ⟨"name", .string (some 100), false, []⟩
      , ⟨"description", .text, false, []⟩
      , ⟨"created_at", .datetime, false, []⟩ ] }

/-- `Account` (`accounts`): note the self-referencing
`parent_account_id` foreign key. -/
def accountsTable : Table :=
  { name := "accounts"
    columns :=
      [ ⟨"account_id", .uuid, true, []⟩
      , ⟨"company_id", .uuid, false, [("companies", "company_id")]⟩
      , ⟨"code", .string (some 20), false, []⟩
      , ⟨"name", .string (some 255), false, []⟩
      , ⟨"type", .string (some 20), false, []⟩
      , ⟨"parent_account_id", .uuid, false, [("accounts", "account_id")]⟩
      , ⟨"created_at", .datetime, false, []⟩
      , ⟨"is_active", .boolean, false, []⟩ ] }

/-- `Customer` (`customers`). -/
def customersTable : Table :=
  { name := "customers"
    columns :=
      [ ⟨"customer_id", .uuid, true, []⟩
      , ⟨"company_id", .uuid, false, [("companies", "company_id")]⟩
      , ⟨"name", .string (some 255), false, []⟩
      , ⟨"gstin", .string (some 15), false, []⟩
      , ⟨"address", .text, false, []⟩
      , ⟨"city", .string (some 100), false, []⟩
      , ⟨"state", .string (some 100), false, []⟩
      , ⟨"country", .string (some 100), false, []⟩
      , ⟨"contact_person", .string (some 100), false, []⟩
      , ⟨"email", .string (some 255), false, []⟩
      , ⟨"phone", .string (some 20), false, []⟩
      , ⟨"credit_limit", .numeric (some 2), false, []⟩
      , ⟨"created_at", .datetime, false, []⟩
      , ⟨"is_active", .boolean, false, []⟩ ] }

/-- `Vendor` (`vendors`). -/
def vendorsTable : Table :=
  { name := "vendors"
    columns :=
      [ ⟨"vendor_id", .uuid, true, []⟩
      , ⟨"company_id", .uuid, false, [("companies", "company_id")]⟩
      , ⟨"name", .string (some 255), false, []⟩
      , ⟨"gstin", .string (some 15), false, []⟩
      , ⟨"address", .text, false, []⟩
      , ⟨"city", .string (some 100), false, []⟩
      , ⟨"state", .string (some 100), false, []⟩
      , ⟨"country", .string (some 100), false, []⟩
      , ⟨"contact_person", .string (some 100), false, []⟩
      , ⟨"email", .string (some 255), false, []⟩
      , ⟨"phone", .string (some 20), false, []⟩
      , ⟨"credit_limit", .numeric (some 2), false, []⟩
      , ⟨"created_at", .datetime, false, []⟩
      , ⟨"is_active", .boolean, false, []⟩ ] }

/-- `Product` (`products`). -/
def productsTable : Table :=
  { name := "products"
    columns :=
      [ ⟨"product_id", .uuid, true, []⟩
      , ⟨"company_id", .uuid, false, [("companies", "company_id")]⟩
      , ⟨"name", .string (some 255), false, []⟩
      , ⟨"sku", .string (some 100), false, []⟩
      , ⟨"hsn_code", .string (some 10), false, []⟩
      , ⟨"description", .text, false, []⟩
      , ⟨"unit", .string (some 20), false, []⟩
      , ⟨"sale_price", .numeric (some 2), false, []⟩
      , ⟨"purchase_price", .numeric (some 2), false, []⟩
      , ⟨"min_stock_level", .numeric (some 2), false, []⟩
      , ⟨"max_stock_level", .numeric (some 2), false, []⟩
      , ⟨"created_at", .datetime, false, []⟩
      , ⟨"is_active", .boolean, false, []⟩ ] }

/-- `CompanyGSTIN` (`company_gstins`). -/
def companyGstinsTable : Table :=
  { name := "company_gstins"
    columns :=
      [ ⟨"gstin_id", .uuid, true, []⟩
      , ⟨"company_id", .uuid, false, [("companies", "company_id")]⟩
      , ⟨"gstin", .string (some 15), false, []⟩
      , ⟨"address_id", .uuid, false, [("addresses", "address_id")]⟩
      , ⟨"is_primary", .boolean, false, []⟩
      , ⟨"is_active", .boolean, false, []⟩
      , ⟨"created_at", .datetime, false, []⟩
      , ⟨"updated_at", .datetime, false, []⟩ ] }

/-- `Transaction` (`transactions`). -/
def transactionsTable : Table :=
  { name := "transactions"
    columns :=
      [ ⟨"transaction_id", .uuid, true, []⟩
      , ⟨"company_id", .uuid, false, [("companies", "company_id")]⟩
      , ⟨"date", .date, false, []⟩
      , ⟨"account_id", .uuid, false, [("accounts", "account_id")]⟩
      , ⟨"amount", .numeric (some 2), false, []⟩
      , ⟨"type", .string (some 10), false, []⟩
      , ⟨"description", .text, false, []⟩
      , ⟨"reference_type", .string (some 50), false, []⟩
      , ⟨"reference_id", .uuid, false, []⟩
      , ⟨"created_by", .uuid, false, []⟩
      , ⟨"created_at", .datetime, false, []⟩ ] }

/-- `Inventory` (`inventory`). -/
def inventoryTable : Table :=
  { name := "inventory"
    columns :=
      [ ⟨"inventory_id", .uuid, true, []⟩
      , ⟨"company_id", .uuid, false, [("companies", "company_id")]⟩
      , ⟨"product_id", .uuid, false, [("products", "product_id")]⟩
      , ⟨"address_id", .uuid, false, [("addresses", "address_id")]⟩
      , ⟨"quantity", .numeric (some 2), false, []⟩
      , ⟨"last_updated", .datetime, false, []⟩ ] }

/-- `SalesOrder` (`sales_orders`). -/
def salesOrdersTable : Table :=
  { name := "sales_orders"
    columns :=
      [ ⟨"order_id", .uuid, true, []⟩
      , ⟨"company_id", .uuid, false, [("companies", "company_id")]⟩
      , ⟨"customer_id", .uuid, false, [("customers", "customer_id")]⟩
      , ⟨"order_date", .date, false, []⟩
      , ⟨"delivery_date", .date, false, []⟩
      , ⟨"status", .string (some 50), false, []⟩
      , ⟨"subtotal", .numeric (some 2), false, []⟩
      , ⟨"cgst_amount", .numeric (some 2), false, []⟩
      , ⟨"sgst_amount", .numeric (some 2), false, []⟩
      , ⟨"igst_amount", .numeric (some 2), false, []⟩
      , ⟨"total_amount", .numeric (some 2), false, []⟩
      , ⟨"notes", .text, false, []⟩
      , ⟨"created_by", .uuid, false, []⟩
      , ⟨"created_at", .datetime, false, []⟩ ] }

/-- `PurchaseOrder` (`purchase_orders`). -/
def purchaseOrdersTable : Table :=
  { name := "purchase_orders"
    columns :=
      [ ⟨"po_id", .uuid, true, []⟩
      , ⟨"company_id", .uuid, false, [("companies", "company_id")]⟩
      , ⟨"vendor_id", .uuid, false, [("vendors", "vendor_id")]⟩
      , ⟨"po_date", .date, false, []⟩
      , ⟨"expected_date", .date, false, []⟩
      , ⟨"status", .string (some 50), false, []⟩
      , ⟨"subtotal", .numeric (some 2), false, []⟩
      , ⟨"cgst_amount", .numeric (some 2), false, []⟩
      , ⟨"sgst_amount", .numeric (some 2), false, []⟩
      , ⟨"igst_amount", .numeric (some 2), false, []⟩
      , ⟨"total_amount", .numeric (some 2), false, []⟩
      , ⟨"notes", .text, false, []⟩
      , ⟨"created_by", .uuid, false, []⟩
      , ⟨"created_at", .datetime, false, []⟩ ] }

/-- `FixedAsset` (`fixed_assets`). -/
def fixedAssetsTable : Table :=
  { name := "fixed_assets"
    columns :=
      [ ⟨"asset_id", .uuid, true, []⟩
      , ⟨"company_id", .uuid, false, [("companies", "company_id")]⟩
      , ⟨"name", .string (some 255), false, []⟩
      , ⟨"asset_number", .string (some 50), false, []⟩
      , ⟨"purchase_date", .date, false, []⟩
      , ⟨"purchase_value", .numeric (some 2), false, []⟩
      , ⟨"vendor_id", .uuid, false, [("vendors", "vendor_id")]⟩
      , ⟨"address_id", .uuid, false, [("addresses", "address_id")]⟩
      , ⟨"asset_class", .string (some 100), false, []⟩
      , ⟨"useful_life_years", .integer, false, []⟩
      , ⟨"depreciation_method", .string (some 50), false, []⟩
      , ⟨"salvage_value", .numeric (some 2), false, []⟩
      , ⟨"current_value", .numeric (some 2), false, []⟩
      , ⟨"last_depreciation_date", .date, false, []⟩
      , ⟨"depreciation_rate", .numeric (some 2), false, []⟩
      , ⟨"status", .string (some 50), false, []⟩
      , ⟨"created_at", .datetime, false, []⟩ ] }

/-- `Employee` (`employees`). -/
def employeesTable : Table :=
  { name := "employees"
    columns :=
      [ ⟨"employee_id", .uuid, true, []⟩
      , ⟨"company_id", .uuid, false, [("companies", "company_id")]⟩
      , ⟨"department_id", .uuid, false, [("departments", "department_id")]⟩
      , ⟨"employee_code", .string (some 50), false, []⟩
      , ⟨"name", .string (some 255), false, []⟩
      , ⟨"pan", .string (some 10), false, []⟩
      , ⟨"pf_number", .string (some 20), false, []⟩
      , ⟨"esi_number", .string (some 20), false, []⟩
      , ⟨"uan", .string (some 12), false, []⟩
      , ⟨"doj", .date, false, []⟩
      , ⟨"dol", .date, false, []⟩
      , ⟨"salary", .numeric (some 2), false, []⟩
      , ⟨"email", .string (some 255), false, []⟩
      , ⟨"phone", .string (some 20), false, []⟩
      , ⟨"address", .text, false, []⟩
      , ⟨"city", .string (some 100), false, []⟩
      , ⟨"state", .string (some 100), false, []⟩
      , ⟨"country", .string (some 100), false, []⟩
      , ⟨"status", .string (some 20), false, []⟩
      , ⟨"created_at", .datetime, false, []⟩ ] }

/-- `SalesOrderItem` (`sales_order_items`). -/
def salesOrderItemsTable : Table :=
  { name := "sales_order_items"
    columns :=
      [ ⟨"item_id", .uuid, true, []⟩
      , ⟨"company_id", .uuid, false, [("companies", "company_id")]⟩
      , ⟨"order_id", .uuid, false, [("sales_orders", "order_id")]⟩
      , ⟨"product_id", .uuid, false, [("products", "product_id")]⟩
      , ⟨"quantity", .numeric (some 2), false, []⟩
      , ⟨"unit_price", .numeric (some 2), false, []⟩
      , ⟨"gst_rate", .numeric (some 2), false, []⟩
      , ⟨"cgst_rate", .numeric (some 2), false, []⟩
      , ⟨"sgst_rate", .numeric (some 2), false, []⟩
      , ⟨"igst_rate", .numeric (some 2), false, []⟩
      , ⟨"cgst_amount", .numeric (some 2), false, []⟩
      , ⟨"sgst_amount", .numeric (some 2), false, []⟩
      , ⟨"igst_amount", .numeric (some 2), false, []⟩
      , ⟨"total_amount", .numeric (some 2), false, []⟩ ] }

/-- `PurchaseOrderItem` (`purchase_order_items`). -/
def purchaseOrderItemsTable : Table :=
  { name := "purchase_order_items"
    columns :=
      [ ⟨"item_id", .uuid, true, []⟩
      , ⟨"company_id", .uuid, false, [("companies", "company_id")]⟩
      , ⟨"po_id", .uuid, false, [("purchase_orders", "po_id")]⟩
      , ⟨"product_id", .uuid, false, [("products", "product_id")]⟩
      , ⟨"quantity", .numeric (some 2), false, []⟩
      , ⟨"unit_price", .numeric (some 2), false, []⟩
      , ⟨"gst_rate", .numeric (some 2), false, []⟩
      , ⟨"cgst_rate", .numeric (some 2), false, []⟩
      , ⟨"sgst_rate", .numeric (some 2), false, []⟩
      , ⟨"igst_rate", .numeric (some 2), false, []⟩
      , ⟨"cgst_amount", .numeric (some 2), false, []⟩
      , ⟨"sgst_amount", .numeric (some 2), false, []⟩
      , ⟨"igst_amount", .numeric (some 2), false, []⟩
      , ⟨"total_amount", .numeric (some 2), false, []⟩ ] }

/-- `Invoice` (`invoices`). -/
def invoicesTable : Table :=
  { name := "invoices"
    columns :=
      [ ⟨"invoice_id", .uuid, true, []⟩
      , ⟨"company_id", .uuid, false, [("companies", "company_id")]⟩
      , ⟨"order_id", .uuid, false, [("sales_orders", "order_id")]⟩
      , ⟨"customer_id", .uuid, false, [("customers", "customer_id")]⟩
      , ⟨"invoice_date", .date, false, []⟩
      , ⟨"due_date", .date, false, []⟩
      , ⟨"amount", .numeric (some 2), false, []⟩
      , ⟨"paid_amount", .numeric (some 2), false, []⟩
      , ⟨"status", .string (some 20), false, []⟩
      , ⟨"created_at", .datetime, false, []⟩ ] }

/-- `Payable` (`payables`). -/
def payablesTable : Table :=
  { name := "payables"
    columns :=
      [ ⟨"payable_id", .uuid, true, []⟩
      , ⟨"company_id", .uuid, false, [("companies", "company_id")]⟩
      , ⟨"po_id", .uuid, false, [("purchase_orders", "po_id")]⟩
      , ⟨"vendor_id", .uuid, false, [("vendors", "vendor_id")]⟩
      , ⟨"invoice_date", .date, false, []⟩
      , ⟨"due_date", .date, false, []⟩
      , ⟨"amount", .numeric (some 2), false, []⟩
      , ⟨"paid_amount", .numeric (some 2), false, []⟩
      , ⟨"status", .string (some 20), false, []⟩
      , ⟨"created_at", .datetime, false, []⟩ ] }

/-- `Payroll` (`payroll`). -/
def payrollTable : Table :=
  { name := "payroll"
    columns :=
      [ ⟨"payroll_id", .uuid, true, []⟩
      , ⟨"company_id", .uuid, false, [("companies", "company_id")]⟩
      , ⟨"employee_id", .uuid, false, [("employees", "employee_id")]⟩
      , ⟨"pay_period", .date, false, []⟩
      , ⟨"basic_salary", .numeric (some 2), false, []⟩
      , ⟨"hra", .numeric (some 2), false, []⟩
      , ⟨"conveyance", .numeric (some 2), false, []⟩
      , ⟨"medical_allowance", .numeric (some 2), false, []⟩
      , ⟨"special_allowance", .numeric (some 2), false, []⟩
      , ⟨"gross_salary", .numeric (some 2), false, []⟩
      , ⟨"pf_deduction", .numeric (some 2), false, []⟩
      , ⟨"esi_deduction", .numeric (some 2), false, []⟩
      , ⟨"tds_deduction", .numeric (some 2), false, []⟩
      , ⟨"other_deductions", .numeric (some 2), false, []⟩
      , ⟨"net_salary", .numeric (some 2), false, []⟩
      , ⟨"payment_status", .string (some 20), false, []⟩
      , ⟨"payment_date", .date, false, []⟩
      , ⟨"created_at", .datetime, false, []⟩ ] }

/-- `AuditLog` (`audit_logs`). -/
def auditLogsTable : Table :=
  { name := "audit_logs"
    columns :=
      [ ⟨"log_id", .uuid, true, []⟩
      , ⟨"company_id", .uuid, false, [("companies", "company_id")]⟩
      , ⟨"erp_user_id", .uuid, false, []⟩
      , ⟨"action", .string (some 255), false, []⟩
      , ⟨"table_name", .string (some 100), false, []⟩
      , ⟨"record_id", .uuid, false, []⟩
      , ⟨"old_values", .text, false, []⟩
      , ⟨"new_values", .text, false, []⟩
      , ⟨"ip_address", .string (some 45), false, []⟩
      , ⟨"user_agent", .string (some 255), false, []⟩
      , ⟨"created_at", .datetime, false, []⟩ ] }

/-- `Subscription` (`subscriptions`). -/
def subscriptionsTable : Table :=
  { name := "subscriptions"
    columns :=
      [ ⟨"subscription_id", .uuid, true, []⟩
      , ⟨"company_id", .uuid, false, [("companies", "company_id")]⟩
      , ⟨"user_id", .uuid, false, []⟩
      , ⟨"plan_type", .string (some 50), false, []⟩
      , ⟨"start_date", .datetime, false, []⟩
      , ⟨"end_date", .datetime, false, []⟩
      , ⟨"is_active", .boolean, false, []⟩
      , ⟨"price_per_user_per_month", .numeric (some 2), false, []⟩
      , ⟨"total_users", .integer, false, []⟩
      , ⟨"total_amount", .numeric (some 2), false, []⟩
      , ⟨"payment_status", .string (some 50), false, []⟩
      , ⟨"razorpay_payment_id", .string (some 255), false, []⟩
      , ⟨"trial_start_date", .datetime, false, []⟩
      , ⟨"trial_end_date", .datetime, false, []⟩
      , ⟨"is_trial_active", .boolean, false, []⟩
      , ⟨"created_at", .datetime, false, []⟩
      , ⟨"updated_at", .datetime, false, []⟩ ] }

/-- `Payment` (`payments`). -/
def paymentsTable : Table :=
  { name := "payments"
    columns :=
      [ ⟨"payment_id", .uuid, true, []⟩
      , ⟨"subscription_id", .uuid, false, [("subscriptions", "subscription_id")]⟩
      , ⟨"amount", .numeric (some 2), false, []⟩
      , ⟨"payment_date", .datetime, false, []⟩
      , ⟨"status", .string (some 50), false, []⟩
      , ⟨"razorpay_order_id", .string (some 255), false, []⟩
      , ⟨"razorpay_payment_id", .string (some 255), false, []⟩
      , ⟨"created_at", .datetime, false, []⟩ ] }

/-- `EmailVerification` (`email_verifications`). -/
def emailVerificationsTable : Table :=
  { name := "email_verifications"
    columns :=
      [ ⟨"verification_id", .uuid, true, []⟩
      , ⟨"user_id", .uuid, false, []⟩
      , ⟨"email", .string (some 255), false, []⟩
      , ⟨"otp", .string (some 6), false, []⟩
      , ⟨"is_verified", .boolean, false, []⟩
      , ⟨"created_at", .datetime, false, []⟩
      , ⟨"expires_at", .datetime, false, []⟩ ] }

/-- `PhoneVerification` (`phone_verifications`). -/
def phoneVerificationsTable : Table :=
  { name := "phone_verifications"
    columns :=
      [ ⟨"verification_id", .uuid, true, []⟩
      , ⟨"user_id", .uuid, false, []⟩
      , ⟨"phone_number", .string (some 20), false, []⟩
      , ⟨"otp", .string (some 6), false, []⟩
      , ⟨"is_verified", .boolean, false, []⟩
      , ⟨"created_at", .datetime, false, []⟩
      , ⟨"expires_at", .datetime, false, []⟩ ] }

/-- `FileExport` (`file_exports`). -/
def fileExportsTable : Table :=
  { name := "file_exports"
    columns :=
      [ ⟨"export_id", .uuid, true, []⟩
      , ⟨"company_id", .uuid, false, [("companies", "company_id")]⟩
      , ⟨"user_id", .uuid, false, []⟩
      , ⟨"user_email", .string (some 255), false, []⟩
      , ⟨"file_type", .string (some 10), false, []⟩
      , ⟨"status", .string (some 20), false, []⟩
      , ⟨"file_path", .string (some 255), false, []⟩
      , ⟨"requested_at", .datetime, false, []⟩
      , ⟨"completed_at", .datetime, false, []⟩
      , ⟨"email_sent", .boolean, false, []⟩ ] }

/-- All schema tables in the order of `get_tables_in_order()`. -/
def schemaTables : List Table :=
  [ companiesTable, rolesTable
  , addressesTable, userCompanyRolesTable, departmentsTable, accountsTable
  , customersTable, vendorsTable, productsTable, companyGstinsTable
  , transactionsTable, inventoryTable, salesOrdersTable, purchaseOrdersTable
  , fixedAssetsTable, employeesTable
  , salesOrderItemsTable, purchaseOrderItemsTable, invoicesTable, payablesTable
  , payrollTable, auditLogsTable, subscriptionsTable, paymentsTable
  , emailVerificationsTable, phoneVerificationsTable, fileExportsTable ]

end GenCsv

namespace GenCsv

theorem rowSet_same (r : Row) (k : String) (v : Value) : rowSet r k v k = some v := by
  simp [rowSet]

theorem rowSet_other (r : Row) (k : String) (v : Value) (s : String) (h : s ≠ k) :
    rowSet r k v s = r s := by
  simp [rowSet, h]

theorem gen_row_foldl_skip (cols : List Column) (i : Nat) (os : String → ColOracle)
    (pool : Pool) (acc : Row) (k : String) (h : ∀ c ∈ cols, c.name ≠ k) :
    (cols.foldl (fun r c => rowSet r c.name (gen_cell c i (os c.name) pool)) acc) k = acc k := by
  induction cols generalizing acc with
  | nil => rfl
  | cons c cs ih =>
    simp only [List.foldl_cons]
    rw [ih _ fun c' hc' => h c' (List.mem_cons_of_mem _ hc')]
    exact rowSet_other _ _ _ _ fun he => h c (List.mem_cons_self _ _) he.symm

theorem gen_row_foldl_mem (cols : List Column) (i : Nat) (os : String → ColOracle)
    (pool : Pool) (acc : Row) (col : Column) (hmem : col ∈ cols)
    (hnd : (cols.map Column.name).Nodup) :
    (cols.foldl (fun r c => rowSet r c.name (gen_cell c i (os c.name) pool)) acc) col.name
      = some (gen_cell col i (os col.name) pool) := by
  induction cols generalizing acc with
  | nil => cases hmem
  | cons c cs ih =>
    simp only [List.map_cons, List.nodup_cons] at hnd
    rcases List.mem_cons.mp hmem with h | h
    · subst h
      simp only [List.foldl_cons]
      rw [gen_row_foldl_skip cs i os pool _ col.name
        fun c' hc' he => hnd.1 (he ▸ List.mem_map_of_mem Column.name hc')]
      exact rowSet_same _ _ _
    · simp only [List.foldl_cons]
      exact ih _ h hnd.2

theorem gen_row_lookup (cols : List Column) (i : Nat) (os : String → ColOracle)
    (pool : Pool) (col : Column) (hmem : col ∈ cols)
    (hnd : (cols.map Column.name).Nodup) :
    gen_row cols i os pool col.name = some (gen_cell col i (os col.name) pool) :=
  gen_row_foldl_mem cols i os pool emptyRow col hmem hnd

end GenCsv

namespace GenCsv

theorem backstop_snd (pk : Column) (i : Nat) (bk : String) (row : Row) :
    (backstop pk i bk row).2 = ((backstop pk i bk row).1 pk.name).getD .vNull := by
  unfold backstop
  by_cases h : (row pk.name).getD .vNull = .vNull
  · simp only [h, if_pos rfl]
    by_cases hu : is_uuid_col pk
    · simp [hu, rowSet_same]
    · by_cases hi : is_integer_col pk
      · simp [hu, hi, rowSet_same]
      · simp [hu, hi, h]
  · simp [h]

theorem backstop_fst_other (pk : Column) (i : Nat) (bk : String) (row : Row) (s : String)
    (h : s ≠ pk.name) : (backstop pk i bk row).1 s = row s := by
  unfold backstop
  by_cases h0 : (row pk.name).getD .vNull = .vNull
  · simp only [h0, if_pos rfl]
    by_cases hu : is_uuid_col pk
    · simp [hu, rowSet_other _ _ _ _ h]
    · by_cases hi : is_integer_col pk
      · simp [hu, hi, rowSet_other _ _ _ _ h]
      · simp [hu, hi]
  · simp [h0]

theorem backstop_of_ne (pk : Column) (i : Nat) (bk : String) (row : Row)
    (h : (row pk.name).getD .vNull ≠ .vNull) :
    backstop pk i bk row = (row, (row pk.name).getD .vNull) := by
  unfold backstop
  simp [h]

theorem gen_one_snd_other (tbl : Table) (osr : String → ColOracle) (bk : String) (i : Nat)
    (pool : Pool) (s : String) (h : s ≠ tbl.name) :
    (gen_one tbl osr bk i pool).2 s = pool s := by
  unfold gen_one
  cases hpk : (tbl.columns.filter fun c => c.primary_key).head? with
  | none => simp [hpk]
  | some pk => simp [hpk, poolAppend, h]

theorem gen_one_fst_lookup (tbl : Table) (osr : String → ColOracle) (bk : String) (i : Nat)
    (pool : Pool) (col : Column) (hmem : col ∈ tbl.columns)
    (hnd : (tbl.columns.map Column.name).Nodup)
    (hsafe : gen_cell col i (osr col.name) pool ≠ .vNull ∨ col.primary_key = false) :
    (gen_one tbl osr bk i pool).1 col.name
      = some (gen_cell col i (osr col.name) pool) := by
  have hrow := gen_row_lookup tbl.columns i osr pool col hmem hnd
  unfold gen_one
  cases hpk : (tbl.columns.filter fun c => c.primary_key).head? with
  | none => simpa [hpk] using hrow
  | some pk =>
    have hpkfil : pk ∈ tbl.columns.filter fun c => c.primary_key := by
      cases hfe : tbl.columns.filter fun c => c.primary_key with
      | nil => rw [hfe] at hpk; cases hpk
      | cons a t =>
        rw [hfe] at hpk
        simp only [List.head?_cons, Option.some.injEq] at hpk
        rw [← hpk]
        exact List.mem_cons_self a t
    have hpkmem : pk ∈ tbl.columns := (List.mem_filter.mp hpkfil).1
    have hpkpk : pk.primary_key = true := by
      simpa using (List.mem_filter.mp hpkfil).2
    simp only [hpk]
    by_cases hname : col.name = pk.name
    · have hpe : pk = col :=
        List.inj_on_of_nodup_map hnd hpkmem hmem (by rw [hname])
      rcases hsafe with hc | hc
      · have hne : (gen_row tbl.columns i osr pool pk.name).getD .vNull ≠ .vNull := by
          rw [hpe, hrow]; simpa using hc
        rw [backstop_of_ne pk i bk _ hne]
        exact hrow
      · rw [hpe] at hpkpk
        rw [hc] at hpkpk
        cases hpkpk
    · rw [backstop_fst_other pk i bk _ col.name hname]
      exact hrow

end GenCsv

namespace GenCsv

theorem gen_rows_length (tbl : Table) (o : Nat → String → ColOracle) (bk : Nat → String) :
    ∀ (n i : Nat) (pool : Pool), (gen_rows tbl o bk i n pool).1.length = n := by
  intro n
  induction n with
  | zero => intro i pool; rfl
  | succ n ih => intro i pool; simp [gen_rows, ih]

theorem gen_rows_frame (tbl : Table) (o : Nat → String → ColOracle) (bk : Nat → String) :
    ∀ (n i : Nat) (pool : Pool) (s : String), s ≠ tbl.name →
      (gen_rows tbl o bk i n pool).2 s = pool s := by
  intro n
  induction n with
  | zero => intro i pool s _; rfl
  | succ n ih =>
    intro i pool s hs
    simp only [gen_rows]
    rw [ih (i + 1) _ s hs, gen_one_snd_other _ _ _ _ _ s hs]

theorem gen_rows_pool (tbl : Table) (o : Nat → String → ColOracle) (bk : Nat → String)
    (pk : Column) (hpk : (tbl.columns.filter fun c => c.primary_key).head? = some pk) :
    ∀ (n i : Nat) (pool : Pool) (l : List Value), pool tbl.name = some l →
      (gen_rows tbl o bk i n pool).2 tbl.name
        = some (l ++ (gen_rows tbl o bk i n pool).1.map fun r => (r pk.name).getD .vNull) := by
  intro n
  induction n with
  | zero => intro i pool l hl; simp [gen_rows, hl]
  | succ n ih =>
    intro i pool l hl
    have h1 : (gen_one tbl (o i) (bk i) i pool).2 tbl.name
        = some (l ++ [((gen_one tbl (o i) (bk i) i pool).1 pk.name).getD .vNull]) := by
      unfold gen_one
      simp only [hpk]
      rw [backstop_snd]
      simp [poolAppend, hl]
    simp only [gen_rows]
    rw [ih (i + 1) _ _ h1]
    simp

theorem gen_rows_add (tbl : Table) (o : Nat → String → ColOracle) (bk : Nat → String) :
    ∀ (n m i : Nat) (pool : Pool),
      gen_rows tbl o bk i (n + m) pool
        = ((gen_rows tbl o bk i n pool).1
             ++ (gen_rows tbl o bk (i + n) m (gen_rows tbl o bk i n pool).2).1,
           (gen_rows tbl o bk (i + n) m (gen_rows tbl o bk i n pool).2).2) := by
  intro n
  induction n with
  | zero => intro m i pool; simp [gen_rows]
  | succ n ih =>
    intro m i pool
    have hsum : n + 1 + m = (n + m) + 1 := by omega
    have hidx : i + (n + 1) = (i + 1) + n := by omega
    rw [hsum, hidx]
    simp only [gen_rows]
    rw [ih m (i + 1) _]
    simp

theorem gen_rows_getD (tbl : Table) (o : Nat → String → ColOracle) (bk : Nat → String)
    (n i j : Nat) (pool : Pool) (hj : j < n) :
    (gen_rows tbl o bk i n pool).1.getD j emptyRow
      = (gen_one tbl (o (i + j)) (bk (i + j)) (i + j) ((gen_rows tbl o bk i j pool).2)).1 := by
  obtain ⟨m, rfl⟩ : ∃ m, n = j + (m + 1) := ⟨n - j - 1, by omega⟩
  rw [gen_rows_add tbl o bk j (m + 1) i pool]
  have hlen : (gen_rows tbl o bk i j pool).1.length ≤ j := by
    rw [gen_rows_length]
  rw [List.getD_append_right _ _ _ _ hlen, gen_rows_length]
  simp [gen_rows]

end GenCsv

namespace GenCsv

theorem getD_mem_of_lt {α : Type} (l : List α) (k : Nat) (d : α) (h : k < l.length) :
    l.getD k d ∈ l := by
  rw [List.getD_eq_getElem _ _ h]
  exact List.getElem_mem h

/-- The value the generator stores for column `col` in row `j` of a
table pass, expressed through the pool state after the first `j` rows.
The side condition rules out the one way the primary-key backstop could
overwrite the cell (the cell would have to be the first primary-key
column and hold `None`). -/
theorem process_table_row_lookup (tbl : Table) (o : Nat → String → ColOracle)
    (bk : Nat → String) (pool : Pool) (col : Column) (hmem : col ∈ tbl.columns)
    (hnd : (tbl.columns.map Column.name).Nodup) (j : Nat) (hj : j < NUM_ROWS)
    (hsafe : gen_cell col j (o j col.name)
        ((gen_rows tbl o bk 0 j (poolSetdefault pool tbl.name)).2) ≠ .vNull
      ∨ col.primary_key = false) :
    (process_table tbl o bk pool).1.getD j emptyRow col.name
      = some (gen_cell col j (o j col.name)
          ((gen_rows tbl o bk 0 j (poolSetdefault pool tbl.name)).2)) := by
  unfold process_table
  rw [gen_rows_getD tbl o bk NUM_ROWS 0 j _ hj]
  simp only [Nat.zero_add]
  exact gen_one_fst_lookup tbl (o j) (bk j) j
    ((gen_rows tbl o bk 0 j (poolSetdefault pool tbl.name)).2) col hmem hnd hsafe

/-- During the generation of `tbl`, a different table's pool entry is
what it was before the pass started. -/
theorem process_table_pool_other (tbl : Table) (o : Nat → String → ColOracle)
    (bk : Nat → String) (pool : Pool) (j : Nat) (s : String) (hs : s ≠ tbl.name) :
    (gen_rows tbl o bk 0 j (poolSetdefault pool tbl.name)).2 s = pool s := by
  rw [gen_rows_frame tbl o bk j 0 _ s hs]
  simp [poolSetdefault, hs]

end GenCsv

namespace GenCsv

theorem digitChar_isDigit : ∀ k, k < 10 → (Nat.digitChar k).isDigit = true := by decide

theorem toDigitsCore_digits :
    ∀ (fuel n : Nat) (ds : List Char), (∀ c ∈ ds, c.isDigit = true) →
      ∀ c ∈ Nat.toDigitsCore 10 fuel n ds, c.isDigit = true := by
  intro fuel
  induction fuel with
  | zero => intro n ds hds; exact hds
  | succ fuel ih =>
    intro n ds hds c hc
    have hd : (Nat.digitChar (n % 10)).isDigit = true :=
      digitChar_isDigit _ (Nat.mod_lt _ (by norm_num))
    simp only [Nat.toDigitsCore] at hc
    split at hc
    · rcases List.mem_cons.mp hc with h | h
      · rw [h]; exact hd
      · exact hds c h
    · refine ih _ _ ?_ c hc
      intro c' hc'
      rcases List.mem_cons.mp hc' with h | h
      · rw [h]; exact hd
      · exact hds c' h

/-- Every character of the decimal rendering of a natural number is a
digit (in particular it contains no decimal point). -/
theorem repr_data_digits (n : Nat) : ∀ c ∈ (toString n).data, c.isDigit = true := by
  intro c hc
  have he : (toString n).data = Nat.toDigitsCore 10 (n + 1) n [] := rfl
  rw [he] at hc
  exact toDigitsCore_digits (n + 1) n [] (by intro c' hc'; cases hc') c hc

theorem repr_length_lt_100 : ∀ m, m < 100 → (toString m).length ≤ 2 := by decide

theorem zfill_length (s : String) (w : Nat) (h : s.length ≤ w) : (zfill s w).length = w := by
  unfold zfill
  by_cases hw : w ≤ s.length
  · rw [if_pos hw]; omega
  · rw [if_neg hw]
    rw [String.length_append]
    simp only [String.length]
    simp [String.mk]
    omega

theorem zfill_data (s : String) (w : Nat) :
    ∀ c ∈ (zfill s w).data, c = '0' ∨ c ∈ s.data := by
  unfold zfill
  intro c hc
  by_cases hw : w ≤ s.length
  · rw [if_pos hw] at hc; exact Or.inr hc
  · rw [if_neg hw] at hc
    rw [String.data_append] at hc
    rcases List.mem_append.mp hc with h | h
    · exact Or.inl (List.eq_of_mem_replicate h)
    · exact Or.inr h

end GenCsv

namespace GenCsv

/-- A small table with an integer primary key (the schema itself has
only UUID primary keys; the sequential-integer branch is exercised on
this fixture). -/
def witnessIntTable : Table :=
  ⟨"wint", [⟨"id", .integer, true, []⟩, ⟨"email", .string (some 255), false, []⟩]⟩

/-- A one-column table with a UUID primary key. -/
def witnessPkTable : Table := ⟨"wpk", [⟨"id", .uuid, true, []⟩]⟩

/-- A concrete oracle handing each column of each row a distinct UUID
string. -/
def oUuid : Nat → String → ColOracle := fun i n => { uuid := n ++ "-" ++ toString i }

/-- A concrete backstop-UUID supply. -/
def bkW : Nat → String := fun i => "bk-" ++ toString i

/-- The empty pool (no table has produced keys yet). -/
def poolEmpty : Pool := fun _ => none

/-- A pool in which the parent table `companies` has produced exactly
one key. -/
def poolCompanies : Pool :=
  fun s => if s = "companies" then some [.vStr "c-0"] else none

/-- `is_numeric_col` excludes every earlier branch of the type
dispatch. -/
theorem numeric_excludes (c : Column) (h : is_numeric_col c = true) :
    is_uuid_col c = false ∧ is_integer_col c = false ∧ is_boolean_col c = false ∧
    is_date_col c = false ∧ is_datetime_col c = false := by
  cases ht : c.type <;>
    simp [is_uuid_col, is_integer_col, is_boolean_col, is_date_col, is_datetime_col,
      is_numeric_col, ht] at h ⊢

/-- `str(random_decimal(2))`: whole part at most 99999 and exactly two
fractional digits, all characters digits. -/
theorem random_decimal_2_spec (kw kf : Nat) :
    ∃ w f, random_decimal 2 99999 kw kf = toString w ++ "." ++ f
      ∧ w ≤ 99999 ∧ f.length = 2
      ∧ (∀ ch ∈ f.data, ch.isDigit = true)
      ∧ (∀ ch ∈ (toString w).data, ch.isDigit = true) := by
  have h100 : kf % 10 ^ 2 < 100 := by
    have h2 : (10 : Nat) ^ 2 = 100 := by norm_num
    rw [h2]; exact Nat.mod_lt _ (by norm_num)
  refine ⟨kw % 100000, zfill (toString (kf % 10 ^ 2)) 2, rfl, ?_, ?_, ?_, repr_data_digits _⟩
  · have : kw % 100000 < 100000 := Nat.mod_lt _ (by norm_num)
    omega
  · exact zfill_length _ _ (repr_length_lt_100 _ h100)
  · intro ch hch
    rcases zfill_data _ _ ch hch with h | h
    · rw [h]; decide
    · exact repr_data_digits _ ch h

/-- Every numeric column of the schema has no foreign key and an
effective scale of 2. -/
theorem schema_numeric_cols_ok :
    ∀ t ∈ schemaTables, ∀ c ∈ t.columns, is_numeric_col c = true →
      c.foreign_keys = [] ∧ (numericScale c).getD 2 = 2 := by decide

end GenCsv

namespace GenCsv

/-- Claim C5: for every decimal column of the schema with declared
scale S (defaulting to 2 when no scale is declared, including `Float`
columns), every synthesized value, when formatted as a string, is a
digit string of exactly S digits after the decimal point (including
trailing zeros) whose whole-number part lies between 0 and 99999
inclusive. -/
theorem decimal_scale_exact (t : Table) (ht : t ∈ schemaTables) (c : Column)
    (hc : c ∈ t.columns) (hnum : is_numeric_col c = true) (o : ColOracle) (pool : Pool) :
    ∃ w f, generate_value_for_column c o pool = .vStr (toString w ++ "." ++ f)
      ∧ w ≤ 99999 ∧ f.length = (numericScale c).getD 2
      ∧ (∀ ch ∈ f.data, ch.isDigit = true)
      ∧ (∀ ch ∈ (toString w).data, ch.isDigit = true) := by
  obtain ⟨hfk, hsc⟩ := schema_numeric_cols_ok t ht c hc hnum
  obtain ⟨hu, hi, hb, hd, hdt⟩ := numeric_excludes c hnum
  rw [hsc]
  unfold generate_value_for_column
  rw [hfk]
  simp only [hu, hi, hb, hd, hdt, hnum, Bool.false_eq_true, if_false, if_true]
  cases hns : numericScale c with
  | some sc =>
    have hsc2 : sc = 2 := by rw [hns] at hsc; simpa using hsc
    rw [hsc2]
    obtain ⟨w, f, he, hw, hf, hfd, hwd⟩ := random_decimal_2_spec o.decWhole o.decFrac
    refine ⟨w, f, ?_, hw, hf, hfd, hwd⟩
    show Value.vStr (random_decimal 2 99999 o.decWhole o.decFrac) = _
    rw [he]
  | none =>
    obtain ⟨w, f, he, hw, hf, hfd, hwd⟩ := random_decimal_2_spec o.decWhole o.decFrac
    refine ⟨w, f, ?_, hw, hf, hfd, hwd⟩
    show Value.vStr (random_decimal 2 99999 o.decWhole o.decFrac) = _
    rw [he]

theorem decimal_scale_exact_witness :
    ∃ w f, generate_value_for_column ⟨"credit_limit", .numeric (some 2), false, []⟩ {} poolEmpty
        = .vStr (toString w ++ "." ++ f)
      ∧ w ≤ 99999
      ∧ f.length = (numericScale ⟨"credit_limit", .numeric (some 2), false, []⟩).getD 2
      ∧ (∀ ch ∈ f.data, ch.isDigit = true)
      ∧ (∀ ch ∈ (toString w).data, ch.isDigit = true) :=
  decimal_scale_exact customersTable (by decide) ⟨"credit_limit", .numeric (some 2), false, []⟩
    (by decide) (by decide) {} poolEmpty

/-- Claim C2: for every table whose primary-key column is an integer
(the auto-increment case), row j (0-based) of the 50-row pass gets the
value j+1 for that column, for every oracle and pool, so the column
takes exactly the values 1..50 in row order with no gaps or repeats,
and this takes precedence over any other value synthesis. -/
theorem int_pk_sequential (tbl : Table) (col : Column) (hmem : col ∈ tbl.columns)
    (hnd : (tbl.columns.map Column.name).Nodup) (hpk : col.primary_key = true)
    (hint : col.type = .integer) (o : Nat → String → ColOracle) (bk : Nat → String)
    (pool : Pool) (j : Nat) (hj : j < NUM_ROWS) :
    (process_table tbl o bk pool).1.getD j emptyRow col.name
      = some (.vInt (Int.ofNat (j + 1))) := by
  have hcell : ∀ (oc : ColOracle) (p : Pool), gen_cell col j oc p = .vInt (Int.ofNat (j + 1)) := by
    intro oc p
    unfold gen_cell
    simp [hpk, is_integer_col, hint]
  rw [process_table_row_lookup tbl o bk pool col hmem hnd j hj
    (Or.inl (by rw [hcell]; simp))]
  rw [hcell]

theorem int_pk_sequential_witness :
    (process_table witnessIntTable oUuid bkW poolEmpty).1.getD 0 emptyRow "id"
      = some (.vInt (Int.ofNat (0 + 1))) :=
  int_pk_sequential witnessIntTable ⟨"id", .integer, true, []⟩ (by decide) (by decide)
    rfl rfl oUuid bkW poolEmpty 0 (by decide)

/-- Claim C10: the string name-heuristic rules are evaluated in the
fixed source order, so the earliest matching rule alone determines the
value: `state_code` matches the state rule (never the code rule),
`contact_email` matches the email rule (not the phone/contact rule),
and `company_status` matches the name/company rule (not the status
rule), for every oracle and pool. -/
theorem heuristic_precedence (o : ColOracle) (pool : Pool) :
    generate_value_for_column ⟨"state_code", .string (some 2), false, []⟩ o pool
        = .vStr o.state
  ∧ generate_value_for_column ⟨"contact_email", .string (some 255), false, []⟩ o pool
        = .vStr o.email
  ∧ generate_value_for_column ⟨"company_status", .string (some 20), false, []⟩ o pool
        = .vStr o.company :=
  ⟨rfl, rfl, rfl⟩

/-- Claim C6: the CSV written for a generated table has as header
exactly the declared column names in declared order, contains exactly
`NUM_ROWS` data records, and every record carries one rendered cell per
declared column (in the header's order, by construction of the
serializer). -/
theorem csv_shape (tbl : Table) (o : Nat → String → ColOracle) (bk : Nat → String)
    (pool : Pool) :
    (write_csv_for_table tbl.columns (process_table tbl o bk pool).1).header
        = tbl.columns.map Column.name
  ∧ (write_csv_for_table tbl.columns (process_table tbl o bk pool).1).records.length
        = NUM_ROWS
  ∧ ∀ rec ∈ (write_csv_for_table tbl.columns (process_table tbl o bk pool).1).records,
      rec.length = tbl.columns.length := by
  refine ⟨rfl, ?_, ?_⟩
  · unfold write_csv_for_table process_table
    simp [gen_rows_length]
  · intro rec hrec
    unfold write_csv_for_table at hrec
    simp only [List.mem_map] at hrec
    obtain ⟨r, _, hr⟩ := hrec
    rw [← hr]
    simp

end GenCsv

namespace GenCsv

/-- Claim C8: synthesizing the rows of a table appends exactly the
generated primary-key values of the first primary-key column (one per
row, in row order, whatever their type, including backstopped values)
to that table's pool entry, and leaves every other table's pool entry
unchanged. -/
theorem pool_append_and_frame (tbl : Table) (pk : Column)
    (hpk : (tbl.columns.filter fun c => c.primary_key).head? = some pk)
    (o : Nat → String → ColOracle) (bk : Nat → String) (pool : Pool) :
    (process_table tbl o bk pool).2 tbl.name
      = some ((pool tbl.name).getD []
          ++ (process_table tbl o bk pool).1.map fun r => (r pk.name).getD .vNull)
  ∧ ∀ s, s ≠ tbl.name → (process_table tbl o bk pool).2 s = pool s := by
  constructor
  · unfold process_table
    exact gen_rows_pool tbl o bk pk hpk NUM_ROWS 0 _ _ (by simp [poolSetdefault])
  · intro s hs
    unfold process_table
    rw [gen_rows_frame tbl o bk NUM_ROWS 0 _ s hs]
    simp [poolSetdefault, hs]

theorem pool_append_and_frame_witness :
    (process_table witnessPkTable oUuid bkW poolEmpty).2 "wpk"
      = some ((poolEmpty "wpk").getD []
          ++ (process_table witnessPkTable oUuid bkW poolEmpty).1.map
              fun r => (r "id").getD .vNull) :=
  (pool_append_and_frame witnessPkTable ⟨"id", .uuid, true, []⟩ (by decide)
    oUuid bkW poolEmpty).1

/-- Claim C9: for the composite-primary-key table `user_company_roles`
(three primary-key columns), only the values of the first declared
primary-key column `erp_user_id` are recorded into the table's key
pool; moreover foreign-key resolution depends only on the referenced
table name, never on the referenced column name, so a foreign key into
this table resolves against those first-column values only. -/
theorem composite_pk_first_col_only (o : Nat → String → ColOracle) (bk : Nat → String)
    (pool : Pool) :
    (process_table userCompanyRolesTable o bk pool).2 "user_company_roles"
      = some ((pool "user_company_roles").getD []
          ++ (process_table userCompanyRolesTable o bk pool).1.map
              fun r => (r "erp_user_id").getD .vNull)
  ∧ ∀ (c : Column) (t rc1 rc2 : String) (oc : ColOracle) (p : Pool),
      generate_value_for_column { c with foreign_keys := [(t, rc1)] } oc p
        = generate_value_for_column { c with foreign_keys := [(t, rc2)] } oc p := by
  constructor
  · unfold process_table
    exact gen_rows_pool userCompanyRolesTable o bk ⟨"erp_user_id", .uuid, true, []⟩
      (by decide) NUM_ROWS 0 _ _ (by simp [poolSetdefault, userCompanyRolesTable])
  · intro c t rc1 rc2 oc p
    rfl

/-- Claim C1: for a column carrying a foreign key to a distinct parent
table `P` whose pool is non-empty (and, as for every foreign-key column
of this schema, the column is neither an integer primary key nor
numeric, and a correctly ordered run has put no nulls in `P`'s pool),
each of the 50 generated rows holds for that column exactly the element
of `P`'s recorded key list selected by the uniform-choice draw, hence a
member of that list. -/
theorem fk_from_parent_pool (tbl : Table) (col : Column) (P rc : String)
    (fkrest : List (String × String)) (l : List Value)
    (hmem : col ∈ tbl.columns) (hnd : (tbl.columns.map Column.name).Nodup)
    (hfk : col.foreign_keys = (P, rc) :: fkrest) (hPT : P ≠ tbl.name)
    (hnpk : (col.primary_key && is_integer_col col) = false)
    (hnn : is_numeric_col col = false)
    (o : Nat → String → ColOracle) (bk : Nat → String) (pool : Pool)
    (hP : pool P = some l) (hl : l ≠ []) (hnonull : Value.vNull ∉ l)
    (j : Nat) (hj : j < NUM_ROWS) :
    (process_table tbl o bk pool).1.getD j emptyRow col.name
        = some (l.getD ((o j col.name).choice % l.length) .vNull)
    ∧ l.getD ((o j col.name).choice % l.length) .vNull ∈ l := by
  have hlen : 0 < l.length := List.length_pos.mpr hl
  have hmemval : l.getD ((o j col.name).choice % l.length) .vNull ∈ l :=
    getD_mem_of_lt _ _ _ (Nat.mod_lt _ hlen)
  have hpoolj : (gen_rows tbl o bk 0 j (poolSetdefault pool tbl.name)).2 P = some l := by
    rw [process_table_pool_other tbl o bk pool j P hPT]; exact hP
  have hemp : l.isEmpty = false := by
    cases l with
    | nil => cases hl rfl
    | cons a t => rfl
  have hcell :
      gen_cell col j (o j col.name) ((gen_rows tbl o bk 0 j (poolSetdefault pool tbl.name)).2)
        = l.getD ((o j col.name).choice % l.length) .vNull := by
    unfold gen_cell
    rw [hnpk]
    simp only [Bool.false_eq_true, if_false]
    unfold generate_value_for_column
    rw [hfk]
    simp only []
    rw [hpoolj]
    simp [hemp, hnn]
  rw [process_table_row_lookup tbl o bk pool col hmem hnd j hj
    (Or.inl (by rw [hcell]; intro hx; exact hnonull (hx ▸ hmemval)))]
  exact ⟨by rw [hcell], hmemval⟩

theorem fk_from_parent_pool_witness :
    (process_table addressesTable oUuid bkW poolCompanies).1.getD 0 emptyRow "company_id"
        = some ([Value.vStr "c-0"].getD ((oUuid 0 "company_id").choice
            % [Value.vStr "c-0"].length) .vNull)
    ∧ [Value.vStr "c-0"].getD ((oUuid 0 "company_id").choice
        % [Value.vStr "c-0"].length) .vNull ∈ [Value.vStr "c-0"] :=
  fk_from_parent_pool addressesTable ⟨"company_id", .uuid, false, [("companies", "company_id")]⟩
    "companies" "company_id" [] [Value.vStr "c-0"] (by decide) (by decide) rfl (by decide)
    rfl rfl oUuid bkW poolCompanies (by decide) (by decide) (by decide) 0 (by decide)

end GenCsv

namespace GenCsv

/-- Claim C3 counterexample: for a string-typed foreign-key column
whose referenced pool is absent, the fallback value is null — not a
bounded random integer as the claim states for non-identifier
columns. -/
theorem fk_fallback_string_is_null :
    generate_value_for_column ⟨"ref_label", .string (some 50), false, [("parent", "id")]⟩
      {} poolEmpty = Value.vNull := rfl

/-- Claim C3 amended: when the referenced table's pool is absent or
empty, the fallback value is a fresh UUID for a UUID column, a bounded
random integer in [1, 500] for an integer column, and null for every
other column type (and the code emits no warning on this path). -/
theorem fk_fallback_amended (col : Column) (P rc : String) (fkrest : List (String × String))
    (hfk : col.foreign_keys = (P, rc) :: fkrest) (o : ColOracle) (pool : Pool)
    (hempty : pool P = none ∨ pool P = some []) :
    generate_value_for_column col o pool
      = (if is_uuid_col col then .vStr o.uuid
         else if is_integer_col col then .vInt (randint 1 (NUM_ROWS * 10) o.rint)
         else .vNull)
  ∧ 1 ≤ randint 1 (NUM_ROWS * 10) o.rint
  ∧ randint 1 (NUM_ROWS * 10) o.rint ≤ 500 := by
  refine ⟨?_, ?_, ?_⟩
  · have hred : generate_value_for_column col o pool
        = match pool P with
          | none => fk_fallback col o
          | some vs => if vs.isEmpty then fk_fallback col o
                       else vs.getD (o.choice % vs.length) .vNull := by
      unfold generate_value_for_column
      rw [hfk]
    rcases hempty with h | h
    · rw [hred, h]
      rfl
    · rw [hred, h]
      rfl
  · simp only [randint, NUM_ROWS]
    omega
  · simp only [randint, NUM_ROWS]
    omega

theorem fk_fallback_amended_witness :
    (generate_value_for_column ⟨"parent_id", .uuid, false, [("parent", "id")]⟩
        ({} : ColOracle) poolEmpty
      = (if is_uuid_col ⟨"parent_id", .uuid, false, [("parent", "id")]⟩ then
           .vStr ({} : ColOracle).uuid
         else if is_integer_col ⟨"parent_id", .uuid, false, [("parent", "id")]⟩ then
           .vInt (randint 1 (NUM_ROWS * 10) ({} : ColOracle).rint)
         else .vNull))
  ∧ 1 ≤ randint 1 (NUM_ROWS * 10) ({} : ColOracle).rint
  ∧ randint 1 (NUM_ROWS * 10) ({} : ColOracle).rint ≤ 500 :=
  fk_fallback_amended ⟨"parent_id", .uuid, false, [("parent", "id")]⟩ "parent" "id" []
    rfl ({} : ColOracle) poolEmpty (Or.inl rfl)

/-- Claim C4 counterexample: row 1 (index 0) of the self-referencing
`accounts` table gets a freshly fabricated UUID for
`parent_account_id` via the empty-pool fallback — not null as the
claim states. -/
theorem self_fk_row0_fabricated :
    (process_table accountsTable oUuid bkW poolEmpty).1.getD 0 emptyRow "parent_account_id"
      = some (.vStr "parent_account_id-0") := by decide

end GenCsv

namespace Loader

/-- Claim C7 evaluated: an empty CSV cell in a `VARCHAR(255)` column is
stringified by `astype(str)` to the literal `"nan"` and inserted as
such (not as null); an empty cell in a column without a VARCHAR limit
does insert null; and an overlong string in a `VARCHAR(3)` column is
truncated to its first 3 characters. -/
theorem loader_empty_cell_behavior :
    inserted_value (load_cell (some 255) (read_cell "")) = some "nan"
  ∧ inserted_value (load_cell none (read_cell "")) = none
  ∧ inserted_value (load_cell (some 3) (read_cell "abcdef")) = some "abc" := by
  refine ⟨?_, ?_, ?_⟩ <;> rfl

end Loader

namespace GenCsv

/-- Claim C4 amended: for a table with a (non-primary-key) UUID column
whose foreign key references the table's own primary key, starting from
a fresh pool entry, every generated row after the first draws that
column's value from the primary-key values of strictly earlier rows of
the same pass, while row 1 (index 0) falls into the empty-pool fallback
and receives a freshly fabricated UUID — not null. -/
theorem self_fk_amended (tbl : Table) (col : Column) (rc : String)
    (fkrest : List (String × String)) (pk : Column)
    (hmem : col ∈ tbl.columns) (hnd : (tbl.columns.map Column.name).Nodup)
    (hfk : col.foreign_keys = (tbl.name, rc) :: fkrest)
    (hcolpk : col.primary_key = false) (hu : col.type = .uuid)
    (hpk : (tbl.columns.filter fun c => c.primary_key).head? = some pk)
    (o : Nat → String → ColOracle) (bk : Nat → String) (pool : Pool)
    (hfresh : (pool tbl.name).getD [] = []) :
    ((process_table tbl o bk pool).1.getD 0 emptyRow col.name
        = some (.vStr ((o 0 col.name).uuid)))
  ∧ ∀ j, 1 ≤ j → j < NUM_ROWS → ∀ v,
      (process_table tbl o bk pool).1.getD j emptyRow col.name = some v →
        v ∈ ((process_table tbl o bk pool).1.take j).map fun r => (r pk.name).getD .vNull := by
  have huu : is_uuid_col col = true := by simp [is_uuid_col, hu]
  have hnn : is_numeric_col col = false := by simp [is_numeric_col, hu]
  have hp0 : (poolSetdefault pool tbl.name) tbl.name = some [] := by
    simp [poolSetdefault, hfresh]
  have hand : (col.primary_key && is_integer_col col) = false := by
    rw [hcolpk]; rfl
  constructor
  · have hcell0 : gen_cell col 0 (o 0 col.name)
        ((gen_rows tbl o bk 0 0 (poolSetdefault pool tbl.name)).2)
          = .vStr ((o 0 col.name).uuid) := by
      unfold gen_cell
      rw [hand]
      simp only [Bool.false_eq_true, if_false]
      have h00 : (gen_rows tbl o bk 0 0 (poolSetdefault pool tbl.name)).2 tbl.name
          = some [] := hp0
      have hred0 : generate_value_for_column col (o 0 col.name)
          ((gen_rows tbl o bk 0 0 (poolSetdefault pool tbl.name)).2)
            = match (gen_rows tbl o bk 0 0 (poolSetdefault pool tbl.name)).2 tbl.name with
              | none => fk_fallback col (o 0 col.name)
              | some vs => if vs.isEmpty then fk_fallback col (o 0 col.name)
                           else vs.getD ((o 0 col.name).choice % vs.length) .vNull := by
        unfold generate_value_for_column
        rw [hfk]
      rw [hred0, h00]
      simp [fk_fallback, huu, hnn]
    rw [process_table_row_lookup tbl o bk pool col hmem hnd 0 (by norm_num [NUM_ROWS])
      (Or.inr hcolpk)]
    rw [hcell0]
  · intro j hj1 hj v hv
    have hpkList : (gen_rows tbl o bk 0 j (poolSetdefault pool tbl.name)).2 tbl.name
        = some ((gen_rows tbl o bk 0 j (poolSetdefault pool tbl.name)).1.map
            fun r => (r pk.name).getD .vNull) := by
      have := gen_rows_pool tbl o bk pk hpk j 0 (poolSetdefault pool tbl.name) [] hp0
      simpa using this
    set pkList := (gen_rows tbl o bk 0 j (poolSetdefault pool tbl.name)).1.map
        (fun r => (r pk.name).getD .vNull) with hpkdef
    have hlenj : pkList.length = j := by
      rw [hpkdef, List.length_map, gen_rows_length]
    have hlpos : 0 < pkList.length := by omega
    have hempj : pkList.isEmpty = false := by
      cases hpl : pkList with
      | nil => rw [hpl] at hlenj; simp at hlenj; omega
      | cons a t => rfl
    have hcellj : gen_cell col j (o j col.name)
        ((gen_rows tbl o bk 0 j (poolSetdefault pool tbl.name)).2)
          = pkList.getD ((o j col.name).choice % pkList.length) .vNull := by
      unfold gen_cell
      rw [hand]
      simp only [Bool.false_eq_true, if_false]
      have hred0 : generate_value_for_column col (o j col.name)
          ((gen_rows tbl o bk 0 j (poolSetdefault pool tbl.name)).2)
            = match (gen_rows tbl o bk 0 j (poolSetdefault pool tbl.name)).2 tbl.name with
              | none => fk_fallback col (o j col.name)
              | some vs => if vs.isEmpty then fk_fallback col (o j col.name)
                           else vs.getD ((o j col.name).choice % vs.length) .vNull := by
        unfold generate_value_for_column
        rw [hfk]
      rw [hred0, hpkList]
      simp [hempj, hnn]
    rw [process_table_row_lookup tbl o bk pool col hmem hnd j hj (Or.inr hcolpk)] at hv
    rw [hcellj] at hv
    have hveq : v = pkList.getD ((o j col.name).choice % pkList.length) .vNull :=
      (Option.some.injEq _ _ ▸ hv).symm
    have hvmem : v ∈ pkList := by
      rw [hveq]
      exact getD_mem_of_lt _ _ _ (Nat.mod_lt _ hlpos)
    have htake : (process_table tbl o bk pool).1.take j
        = (gen_rows tbl o bk 0 j (poolSetdefault pool tbl.name)).1 := by
      unfold process_table
      obtain ⟨m, hm⟩ : ∃ m, NUM_ROWS = j + m := ⟨NUM_ROWS - j, by omega⟩
      rw [hm, gen_rows_add tbl o bk j m 0 (poolSetdefault pool tbl.name)]
      have hA : (gen_rows tbl o bk 0 j (poolSetdefault pool tbl.name)).1.length = j :=
        gen_rows_length tbl o bk j 0 _
      calc ((gen_rows tbl o bk 0 j (poolSetdefault pool tbl.name)).1
              ++ (gen_rows tbl o bk (0 + j) m
                  (gen_rows tbl o bk 0 j (poolSetdefault pool tbl.name)).2).1).take j
          = ((gen_rows tbl o bk 0 j (poolSetdefault pool tbl.name)).1
              ++ (gen_rows tbl o bk (0 + j) m
                  (gen_rows tbl o bk 0 j (poolSetdefault pool tbl.name)).2).1).take
              (gen_rows tbl o bk 0 j (poolSetdefault pool tbl.name)).1.length := by rw [hA]
        _ = (gen_rows tbl o bk 0 j (poolSetdefault pool tbl.name)).1 := List.take_left _ _
    rw [htake]
    exact hvmem

theorem self_fk_amended_witness :
    (process_table accountsTable oUuid bkW poolEmpty).1.getD 0 emptyRow "parent_account_id"
      = some (.vStr ((oUuid 0 "parent_account_id").uuid)) :=
  (self_fk_amended accountsTable
    ⟨"parent_account_id", .uuid, false, [("accounts", "account_id")]⟩ "account_id" []
    ⟨"account_id", .uuid, true, []⟩ (by decide) (by decide) rfl rfl rfl (by decide)
    oUuid bkW poolEmpty (by decide)).1

end GenCsv
